import Mathlib

/-!
Verification of the FinHealth frontend against its specification.

The definitions below are shallow embeddings of the JavaScript source:
pure rendering helpers become Lean functions, React reducer state becomes
an explicit state structure, JavaScript numbers become rationals, and
nullable values become `Option`.
-/

namespace FinHealth

/-! ### String helpers modelling JavaScript string methods -/

/-- `startsWithChars pat s` is true when `pat` occurs at the head of `s`. -/
def startsWithChars : List Char → List Char → Bool
  | [], _ => true
  | _ :: _, [] => false
  | a :: as, b :: bs => a == b && startsWithChars as bs

/-- `hasSubChars pat s` is true when `pat` occurs contiguously inside `s`. -/
def hasSubChars (pat : List Char) : List Char → Bool
  | [] => pat.isEmpty
  | c :: cs => startsWithChars pat (c :: cs) || hasSubChars pat cs

/-- Model of the JavaScript `s.includes(pat)` substring test. -/
def strIncludes (s pat : String) : Bool :=
  hasSubChars pat.data s.data

/-- Model of `u?.includes(pat)` under optional chaining: an absent string
yields `undefined`, which is falsy. -/
def strIncludesOpt (u : Option String) (pat : String) : Bool :=
  match u with
  | none => false
  | some s => strIncludes s pat

/-- Model of the JavaScript `s.toLowerCase()` conversion. -/
def strToLower (s : String) : String := ⟨s.data.map Char.toLower⟩

/-- Model of the JavaScript `s.endsWith(pat)` suffix test. -/
def strEndsWith (s pat : String) : Bool :=
  startsWithChars pat.data.reverse s.data.reverse

/-- JavaScript truthiness of a `localStorage.getItem` result: `null` and
the empty string are falsy, every other string is truthy. -/
def jsTruthy : Option String → Bool
  | none => false
  | some s => s != ""

/-! ### Axios request/response interceptors
(src/frontend/src/utils/axiosSetup.js and its copy in src/unnamed/part_002) -/

/-- The browser `localStorage` slots the interceptors read. -/
structure LocalStorage where
  token : Option String
  currentCompanyId : Option String
deriving DecidableEq

/-- The two request headers the interceptor may set. -/
structure Headers where
  authorization : Option String
  xCompanyId : Option String
deriving DecidableEq

/-- An axios request configuration: its URL and headers. -/
structure Config where
  url : Option String
  headers : Headers
deriving DecidableEq

/-- Request interceptor from src/frontend/src/utils/axiosSetup.js lines
12-25: skip login/register URLs, otherwise set `Authorization` to
`Bearer <token>` when the stored token is truthy and `X-Company-ID` to the
stored company id when it is truthy. -/
def requestInterceptor (store : LocalStorage) (config : Config) : Config :=
  if strIncludesOpt config.url "/api/auth/login" ||
      strIncludesOpt config.url "/api/auth/register" then
    config
  else
    let c1 :=
      if jsTruthy store.token then
        { config with headers :=
          { config.headers with
            authorization := some ("Bearer " ++ store.token.getD "") } }
      else config
    if jsTruthy store.currentCompanyId then
      { c1 with headers := { c1.headers with xCompanyId := store.currentCompanyId } }
    else c1

/-- A rejected axios response as seen by the response interceptor:
`error.response?.status` and `error.response?.data?.detail`. -/
structure ErrorResponse where
  status : Option Int
  detail : Option String
deriving DecidableEq

/-- Observable effects of the response error handler: whether
`currentCompanyId` was removed from `localStorage` and whether the page
was reloaded. -/
structure ErrorEffects where
  removedCompanyId : Bool
  reloaded : Bool
deriving DecidableEq

/-- Response interceptor error branch from
src/frontend/src/utils/axiosSetup.js lines 28-38: on a 403 whose detail
mentions "company", clear the stored company id and reload. -/
def responseInterceptor (e : ErrorResponse) : ErrorEffects :=
  if (e.status == some 403) &&
      (match e.detail with
       | some d => strIncludes d "company"
       | none => false) then
    ⟨true, true⟩
  else
    ⟨false, false⟩

/-- Request interceptor as written in src/unnamed/part_002 lines 11-24
(the duplicate axios setup module), transcribed separately. -/
def requestInterceptorPart002 (store : LocalStorage) (config : Config) : Config :=
  if strIncludesOpt config.url "/api/auth/login" ||
      strIncludesOpt config.url "/api/auth/register" then
    config
  else
    let c1 :=
      if jsTruthy store.token then
        { config with headers :=
          { config.headers with
            authorization := some ("Bearer " ++ store.token.getD "") } }
      else config
    if jsTruthy store.currentCompanyId then
      { c1 with headers := { c1.headers with xCompanyId := store.currentCompanyId } }
    else c1

/-- Response interceptor error branch as written in src/unnamed/part_002
lines 27-37, transcribed separately. -/
def responseInterceptorPart002 (e : ErrorResponse) : ErrorEffects :=
  if (e.status == some 403) &&
      (match e.detail with
       | some d => strIncludes d "company"
       | none => false) then
    ⟨true, true⟩
  else
    ⟨false, false⟩

/-! ### Dashboard page (src/frontend/src/pages/Dashboard/Dashboard.js) -/

/-- Fields of a `/api/dashboard-summary` response that the Dashboard page
reads. Numbers are rationals; absent fields are `none`; the three trend
arrays are lists of (month label, value) pairs. -/
structure DashboardSummary where
  revenue : Option ℚ
  net_income : Option ℚ
  total_assets : Option ℚ
  financial_health_score : Option ℚ
  current_ratio : Option ℚ
  debt_to_equity : Option ℚ
  net_profit_margin : Option ℚ
  return_on_assets : Option ℚ
  revenue_trend : List (String × ℚ)
  cash_flow_trend : List (String × ℚ)
  health_trend : List (String × ℚ)
deriving DecidableEq

/-- The change the Dashboard computes from one trend array
(Dashboard.js lines 45-51): when the array has more than one entry, the
value of its last entry minus the value of its second-to-last entry,
otherwise 0. -/
def lastDiff (trend : List (String × ℚ)) : ℚ :=
  if trend.length > 1 then
    (trend.getD (trend.length - 1) ("", 0)).2 - (trend.getD (trend.length - 2) ("", 0)).2
  else 0

/-- The `trends` object the Dashboard builds (Dashboard.js lines 44-53). -/
structure Trends where
  revenue_change : ℚ
  net_income_change : ℚ
  assets_change : ℚ
  health_score_change : ℚ
  current_ratio : ℚ
deriving DecidableEq

/-- `trends` from Dashboard.js lines 44-53, over a possibly null
`dashboardSummary`. -/
def computeTrends (d : Option DashboardSummary) : Trends :=
  match d with
  | none => ⟨0, 0, 0, 0, 0⟩
  | some s =>
    ⟨lastDiff s.revenue_trend,
     lastDiff s.cash_flow_trend,
     0,
     lastDiff s.health_trend,
     s.current_ratio.getD 0⟩

/-- Every number contained in a dashboard-summary response. -/
def summaryValues (s : DashboardSummary) : List ℚ :=
  s.revenue.toList ++ s.net_income.toList ++ s.total_assets.toList ++
  s.financial_health_score.toList ++ s.current_ratio.toList ++
  s.debt_to_equity.toList ++ s.net_profit_margin.toList ++
  s.return_on_assets.toList ++
  s.revenue_trend.map Prod.snd ++ s.cash_flow_trend.map Prod.snd ++
  s.health_trend.map Prod.snd

/-- Colour class of the Financial Health Score card (Dashboard.js line
131): green at 80 and above, yellow at 60 and above, red below 60. -/
def healthScoreColor (score : ℚ) : String :=
  if score ≥ 80 then "text-green-600"
  else if score ≥ 60 then "text-yellow-600"
  else "text-red-600"

/-- What the Financial Health Score card renders for a numeric score:
its colour class and the caption under the number
(Dashboard.js lines 129-135). -/
structure HealthScoreCard where
  colorClass : String
  caption : String
deriving DecidableEq

/-- The Financial Health Score card for a numeric score
(Dashboard.js lines 129-135). -/
def renderHealthScoreCard (score : ℚ) : HealthScoreCard :=
  ⟨healthScoreColor score, "Out of 100"⟩

/-! ### Credit Evaluation page
(src/frontend/src/pages/CreditEvaluation/CreditEvaluation.js) -/

/-- Fields of a `/api/credit-evaluation` response that the page reads. -/
structure CreditData where
  credit_score : Option ℚ
  credit_rating : String
  loan_eligibility : String
deriving DecidableEq

/-- `getRatingColor` (CreditEvaluation.js lines 48-58). -/
def getRatingColor (rating : String) : String :=
  if rating = "AAA" then "text-green-600 bg-green-100 border-green-200"
  else if rating = "AA" then "text-emerald-600 bg-emerald-100 border-emerald-200"
  else if rating = "A" then "text-blue-600 bg-blue-100 border-blue-200"
  else if rating = "BBB" then "text-yellow-600 bg-yellow-100 border-yellow-200"
  else if rating = "BB" then "text-orange-600 bg-orange-100 border-orange-200"
  else if rating = "High Risk" then "text-red-600 bg-red-100 border-red-200"
  else "text-gray-500 bg-gray-100 border-gray-200"

/-- The six ratings named by the page, in the order of the switch. -/
def ratingCases : List String := ["AAA", "AA", "A", "BBB", "BB", "High Risk"]

/-- `getScoreColor` (CreditEvaluation.js lines 69-76). -/
def getScoreColor (score : ℚ) : String :=
  if score ≥ 800 then "bg-green-500"
  else if score ≥ 700 then "bg-emerald-500"
  else if score ≥ 600 then "bg-blue-500"
  else if score ≥ 500 then "bg-yellow-500"
  else if score ≥ 400 then "bg-orange-500"
  else "bg-red-500"

/-- What the credit-score section renders (CreditEvaluation.js lines
122-153): the caption after the number, the rating badge text and colour,
and the progress bar colour and width percentage. -/
structure ScoreRender where
  maxCaption : String
  ratingText : String
  ratingColor : String
  barColor : String
  barWidthPct : ℚ
deriving DecidableEq

/-- The credit-score section for a numeric score `s`
(CreditEvaluation.js lines 122-153): the "/ 900" caption, the rating
badge taken from `credit_rating`, its colour from `getRatingColor`, and
a progress bar of colour `getScoreColor s` and width `(s / 900) * 100`
percent. -/
def renderScoreSection (d : CreditData) (s : ℚ) : ScoreRender :=
  ⟨"/ 900", d.credit_rating, getRatingColor d.credit_rating,
   getScoreColor s, s / 900 * 100⟩

/-- The credit-score section of the page. A null `credit_score` makes the
page return the upload prompt instead (CreditEvaluation.js line 104), so
the section only renders for a numeric score. -/
def renderCreditPage (d : CreditData) : Option ScoreRender :=
  match d.credit_score with
  | none => none
  | some s => some (renderScoreSection d s)

/-! ### Benchmarking page (src/frontend/src/pages/Benchmarking/Benchmarking.js) -/

/-- `getPercentileColor` (Benchmarking.js lines 59-65). -/
def getPercentileColor (percentile : ℚ) : String :=
  if percentile ≥ 75 then "bg-green-500"
  else if percentile ≥ 60 then "bg-emerald-500"
  else if percentile ≥ 40 then "bg-yellow-500"
  else if percentile ≥ 25 then "bg-orange-500"
  else "bg-red-500"

/-- The five percentile colour bands, from lowest to highest. -/
def percentileBands : List String :=
  ["bg-red-500", "bg-orange-500", "bg-yellow-500", "bg-emerald-500", "bg-green-500"]

/-- Rank of a band in the order red < orange < yellow < emerald < green. -/
def bandRank (c : String) : ℕ :=
  if c = "bg-red-500" then 0
  else if c = "bg-orange-500" then 1
  else if c = "bg-yellow-500" then 2
  else if c = "bg-emerald-500" then 3
  else if c = "bg-green-500" then 4
  else 5

/-- Width of a metric's progress bar (Benchmarking.js line 216): the
percentile value itself, as a percentage. -/
def benchmarkBarWidth (percentile : ℚ) : ℚ := percentile

/-! ### Data Upload page (src/frontend/src/pages/DataUpload/DataUpload.js) -/

/-- The fields of a browser `File` object that `validateFile` reads. -/
structure JsFile where
  name : String
  type : String
  size : ℕ
deriving DecidableEq

/-- `ALLOWED_TYPES` (DataUpload.js line 8). -/
def ALLOWED_TYPES : List String :=
  ["text/csv", "application/vnd.ms-excel",
   "application/vnd.openxmlformats-officedocument.spreadsheetml.sheet",
   "application/pdf"]

/-- `ALLOWED_EXTS` (DataUpload.js line 9). -/
def ALLOWED_EXTS : List String := [".csv", ".xlsx", ".xls", ".pdf"]

/-- `MAX_SIZE_MB` (DataUpload.js line 10). -/
def MAX_SIZE_MB : ℕ := 10

/-- `validateFile` (DataUpload.js lines 21-35): extension check, MIME
type check with a PDF-name escape hatch, then the size check. -/
def validateFile (f : JsFile) : Bool :=
  if !(ALLOWED_EXTS.any fun ext => strEndsWith (strToLower f.name) ext) then false
  else if !(ALLOWED_TYPES.contains f.type) && !(strEndsWith (strToLower f.name) ".pdf") then false
  else if f.size > MAX_SIZE_MB * 1024 * 1024 then false
  else true

/-- The component state `handleFile` may touch (DataUpload.js lines
16-19): the selected file, the status and the message. -/
structure UploadState where
  file : Option JsFile
  status : Option String
  message : String
deriving DecidableEq

/-- `handleFile` (DataUpload.js lines 37-43): on a valid file, select it
and reset status and message; otherwise do nothing. -/
def handleFile (f : JsFile) (st : UploadState) : UploadState :=
  if validateFile f then { st with file := some f, status := none, message := "" }
  else st

/-! ### Financial data reducer (src/unnamed/part_004 lines 50-155) -/

/-- The reducer state (part_004 lines 5-28), over an arbitrary type `V`
of JavaScript values for the payload-carrying fields. -/
structure FDState (V : Type) where
  loading : Bool
  initialLoading : Bool
  dashboardSummary : Option V
  financialHealth : Option V
  riskAnalysis : Option V
  creditEvaluation : Option V
  forecasting : Option V
  benchmarking : Option V
  monthlyData : Option V
  selectedCompany : Option V
  companies : Option V
  error : Option V
  lastUpdated : Option String

/-- The reducer actions (part_004 lines 31-47), with their payloads;
`unknownAction` stands for any unrecognised action type. -/
inductive FDAction (V : Type)
  | setInitialLoading (b : Bool)
  | setLoading (b : Bool)
  | setSelectedCompany (p : Option V)
  | setCompanies (p : Option V)
  | setDashboardSummary (p : Option V)
  | setFinancialHealth (p : Option V)
  | setRiskAnalysis (p : Option V)
  | setCreditEvaluation (p : Option V)
  | setForecasting (p : Option V)
  | setBenchmarking (p : Option V)
  | setMonthlyData (p : Option V)
  | setError (p : Option V)
  | clearError
  | refreshAllData
  | updateAfterUpload
  | unknownAction

/-- `financialDataReducer` (part_004 lines 50-155). `now` is the string
`new Date().toISOString()` produces when the reducer runs. -/
def financialDataReducer {V : Type} (now : String) (state : FDState V) :
    FDAction V → FDState V
  | .setInitialLoading b => { state with initialLoading := b }
  | .setLoading b => { state with loading := b }
  | .setSelectedCompany p => { state with selectedCompany := p }
  | .setCompanies p => { state with companies := p }
  | .setDashboardSummary p =>
    { state with dashboardSummary := p, lastUpdated := some now }
  | .setFinancialHealth p =>
    { state with financialHealth := p, lastUpdated := some now }
  | .setRiskAnalysis p =>
    { state with riskAnalysis := p, lastUpdated := some now }
  | .setCreditEvaluation p =>
    { state with creditEvaluation := p, lastUpdated := some now }
  | .setForecasting p =>
    { state with forecasting := p, lastUpdated := some now }
  | .setBenchmarking p =>
    { state with benchmarking := p, lastUpdated := some now }
  | .setMonthlyData p =>
    { state with monthlyData := p, lastUpdated := some now }
  | .setError p =>
    { state with error := p, loading := false, initialLoading := false }
  | .clearError => { state with error := none }
  | .refreshAllData => { state with loading := true, error := none }
  | .updateAfterUpload => { state with lastUpdated := some now }
  | .unknownAction => state

/-! ### API calls that deliver computed metrics -/

/-- The four kinds of server-computed data the spec documents paths for. -/
inductive DataKind
  | financialHealth
  | creditEvaluation
  | forecast
  | benchmark
deriving DecidableEq

/-- The path the spec documents for each data kind. -/
def docPath : DataKind → String
  | .financialHealth => "/api/financial-health"
  | .creditEvaluation => "/api/credit-evaluation"
  | .forecast => "/api/forecast"
  | .benchmark => "/api/benchmark"

/-- One `axios.get` call site in the frontend: the file it lives in, the
path and query parameter names it passes, and, when its response is
stored as one of the four documented data kinds, that kind. -/
structure ApiGet where
  file : String
  path : String
  params : List String
  kind : Option DataKind
deriving DecidableEq

/-- Every `axios.get` call site in the frontend source, transcribed from
the repository. -/
def apiGetCalls : List ApiGet :=
  [⟨"frontend/src/pages/Benchmarking/Benchmarking.js", "/api/benchmark", [], some .benchmark⟩,
   ⟨"frontend/src/pages/CreditEvaluation/CreditEvaluation.js", "/api/credit-evaluation", [], some .creditEvaluation⟩,
   ⟨"unnamed/part_009", "/api/forecast", ["months_ahead", "forecast_type"], some .forecast⟩,
   ⟨"unnamed/part_007", "/api/risk-analysis", [], none⟩,
   ⟨"unnamed/part_005", "/api/financial-health", [], some .financialHealth⟩,
   ⟨"unnamed/part_004", "/api/dashboard-summary", [], none⟩,
   ⟨"unnamed/part_004", "/api/financial-health", [], some .financialHealth⟩,
   ⟨"unnamed/part_004", "/api/risk-analysis", [], none⟩,
   ⟨"unnamed/part_004", "/api/credit-evaluation", [], some .creditEvaluation⟩,
   ⟨"unnamed/part_004", "/api/company/", [], none⟩,
   ⟨"frontend/src/contexts/AuthContext.js", "/api/user/profile", [], none⟩,
   ⟨"unnamed/part_006", "/api/user/profile", [], none⟩,
   ⟨"unnamed/part_009", "/api/settings/company", [], none⟩,
   ⟨"unnamed/part_009", "/api/settings/preferences", [], none⟩,
   ⟨"unnamed/part_009", "/api/settings/integrations", [], none⟩,
   ⟨"frontend/src/pages/Reports/Reports.js", "/api/reports", [], none⟩,
   ⟨"frontend/src/pages/Reports/Reports.js", "/api/reports/id/download/fileType", [], none⟩,
   ⟨"frontend/src/pages/Reports/Reports.js", "/api/documents", [], none⟩,
   ⟨"frontend/src/pages/Reports/Reports.js", "/api/documents/id/download", [], none⟩]

/-! ## Theorems -/

/-- C9: for every state and action, `financialDataReducer` changes only
the fields the action names: SET_SELECTED_COMPANY only `selectedCompany`,
SET_COMPANIES only `companies`, each data-setting action only its own
data field plus `lastUpdated`, SET_ERROR only `error`, `loading` and
`initialLoading`, and an unrecognised action returns the state
unchanged. -/
theorem C9_reducer_frame {V : Type} (now : String) (st : FDState V) (p : Option V) :
    financialDataReducer now st (.setSelectedCompany p) = { st with selectedCompany := p } ∧
    financialDataReducer now st (.setCompanies p) = { st with companies := p } ∧
    financialDataReducer now st (.setDashboardSummary p) =
      { st with dashboardSummary := p, lastUpdated := some now } ∧
    financialDataReducer now st (.setFinancialHealth p) =
      { st with financialHealth := p, lastUpdated := some now } ∧
    financialDataReducer now st (.setRiskAnalysis p) =
      { st with riskAnalysis := p, lastUpdated := some now } ∧
    financialDataReducer now st (.setCreditEvaluation p) =
      { st with creditEvaluation := p, lastUpdated := some now } ∧
    financialDataReducer now st (.setForecasting p) =
      { st with forecasting := p, lastUpdated := some now } ∧
    financialDataReducer now st (.setBenchmarking p) =
      { st with benchmarking := p, lastUpdated := some now } ∧
    financialDataReducer now st (.setMonthlyData p) =
      { st with monthlyData := p, lastUpdated := some now } ∧
    financialDataReducer now st (.setError p) =
      { st with error := p, loading := false, initialLoading := false } ∧
    financialDataReducer now st .unknownAction = st :=
  ⟨rfl, rfl, rfl, rfl, rfl, rfl, rfl, rfl, rfl, rfl, rfl⟩

/-- C10: the axios setup module and its duplicate in part_002 are
behaviourally equivalent: their request interceptors agree on every
store and configuration, their response interceptors agree on every
error, and the shared 403 handling removes the company id and reloads
exactly when the status is 403 and the detail mentions "company". -/
theorem C10_axios_modules_equivalent (store : LocalStorage) (cfg : Config)
    (e : ErrorResponse) :
    requestInterceptor store cfg = requestInterceptorPart002 store cfg ∧
    responseInterceptor e = responseInterceptorPart002 e ∧
    (responseInterceptorPart002 e = ⟨true, true⟩ ↔
      e.status = some 403 ∧ ∃ d, e.detail = some d ∧ strIncludes d "company" = true) ∧
    (responseInterceptorPart002 e = ⟨true, true⟩ ∨
      responseInterceptorPart002 e = ⟨false, false⟩) := by
  refine ⟨rfl, rfl, ?_, ?_⟩
  · unfold responseInterceptorPart002
    cases e with
    | mk status detail =>
      cases detail with
      | none => simp
      | some d =>
        by_cases hs : status = some 403 <;> by_cases hd : strIncludes d "company" = true <;>
          simp_all
  · unfold responseInterceptorPart002
    split
    · exact Or.inl rfl
    · exact Or.inr rfl

/-- C6: the Financial Health Score card captions the score "Out of 100",
and a numeric score gets exactly one colour class: green exactly when it
is at least 80, yellow exactly when it is at least 60 and below 80, and
red exactly otherwise. -/
theorem C6_health_score_presentation (s : ℚ) :
    (renderHealthScoreCard s).caption = "Out of 100" ∧
    ((renderHealthScoreCard s).colorClass = "text-green-600" ↔ 80 ≤ s) ∧
    ((renderHealthScoreCard s).colorClass = "text-yellow-600" ↔ 60 ≤ s ∧ s < 80) ∧
    ((renderHealthScoreCard s).colorClass = "text-red-600" ↔ s < 60) := by
  unfold renderHealthScoreCard healthScoreColor
  refine ⟨rfl, ?_, ?_, ?_⟩ <;> split_ifs with h1 h2 <;>
    simp <;> first
      | linarith
      | (intro hx; linarith)
      | (constructor <;> linarith)

/-- C7: the Benchmarking percentile rendering is monotone: a larger
percentile never gets a lower-ranked band in the order
red < orange < yellow < emerald < green, every percentile gets exactly
one of the five bands (listed in strictly increasing rank order), and the
progress bar width equals the percentile itself. -/
theorem C7_percentile_monotone (p1 p2 : ℚ) (h : p1 ≤ p2) :
    bandRank (getPercentileColor p1) ≤ bandRank (getPercentileColor p2) ∧
    getPercentileColor p1 ∈ percentileBands ∧
    percentileBands.Pairwise (fun a b => bandRank a < bandRank b) ∧
    benchmarkBarWidth p1 = p1 := by
  refine ⟨?_, ?_, by decide, rfl⟩
  · unfold getPercentileColor
    split_ifs <;> first | decide | linarith
  · unfold getPercentileColor
    split_ifs <;> decide

/-- Witness for C7 at the concrete percentiles 30 and 80. -/
theorem C7_percentile_monotone_witness :
    (30 : ℚ) ≤ 80 ∧
    bandRank (getPercentileColor 30) ≤ bandRank (getPercentileColor 80) :=
  ⟨by norm_num, (C7_percentile_monotone 30 80 (by norm_num)).1⟩

/-- C4: for a numeric credit score `s` the page shows the "/ 900"
caption and draws the bar at `(s / 900) * 100` percent, which lies in
[0, 100] whenever `0 ≤ s ≤ 900`; and `getRatingColor` gives the six
named ratings pairwise distinct colour classes, all distinct from the
default grey class returned for every other string. -/
theorem C4_credit_score_scale (d : CreditData) (s : ℚ)
    (h : d.credit_score = some s) :
    renderCreditPage d = some (renderScoreSection d s) ∧
    (renderScoreSection d s).maxCaption = "/ 900" ∧
    (renderScoreSection d s).barWidthPct = s / 900 * 100 ∧
    (0 ≤ s → s ≤ 900 →
      0 ≤ (renderScoreSection d s).barWidthPct ∧
      (renderScoreSection d s).barWidthPct ≤ 100) ∧
    (∀ x ∈ ratingCases, ∀ y ∈ ratingCases, x ≠ y →
      getRatingColor x ≠ getRatingColor y) ∧
    (∀ x, x ∉ ratingCases →
      getRatingColor x = "text-gray-500 bg-gray-100 border-gray-200") ∧
    (∀ x ∈ ratingCases,
      getRatingColor x ≠ "text-gray-500 bg-gray-100 border-gray-200") := by
  refine ⟨?_, rfl, rfl, ?_, by decide, ?_, by decide⟩
  · unfold renderCreditPage
    rw [h]
  · intro h0 h900
    have hw : (renderScoreSection d s).barWidthPct = s * (1 / 9) := by
      show s / 900 * 100 = s * (1 / 9)
      ring
    rw [hw]
    constructor <;> linarith
  · intro x hx
    simp only [ratingCases, List.mem_cons, List.not_mem_nil, or_false, not_or] at hx
    obtain ⟨h1, h2, h3, h4, h5, h6⟩ := hx
    unfold getRatingColor
    simp [h1, h2, h3, h4, h5, h6]

/-- Witness for C4 at the concrete score 450 with rating "AAA". -/
theorem C4_credit_score_scale_witness :
    renderCreditPage ⟨some 450, "AAA", "Eligible"⟩ =
      some (renderScoreSection ⟨some 450, "AAA", "Eligible"⟩ 450) ∧
    0 ≤ (renderScoreSection ⟨some 450, "AAA", "Eligible"⟩ 450).barWidthPct ∧
    (renderScoreSection ⟨some 450, "AAA", "Eligible"⟩ 450).barWidthPct ≤ 100 := by
  have h := C4_credit_score_scale ⟨some 450, "AAA", "Eligible"⟩ 450 rfl
  exact ⟨h.1, (h.2.2.2.1 (by norm_num) (by norm_num)).1,
         (h.2.2.2.1 (by norm_num) (by norm_num)).2⟩

/-- C5: the rating badge is taken verbatim from the server: two
responses agreeing on `credit_rating` render identical badge text and
colour, whatever their other fields, and the badge text is exactly the
`credit_rating` field. -/
theorem C5_rating_verbatim (d1 d2 : CreditData) (r1 r2 : ScoreRender)
    (hr : d1.credit_rating = d2.credit_rating)
    (h1 : renderCreditPage d1 = some r1)
    (h2 : renderCreditPage d2 = some r2) :
    r1.ratingText = r2.ratingText ∧ r1.ratingColor = r2.ratingColor ∧
    r1.ratingText = d1.credit_rating := by
  unfold renderCreditPage at h1 h2
  cases hc1 : d1.credit_score with
  | none => rw [hc1] at h1; simp at h1
  | some s1 =>
    cases hc2 : d2.credit_score with
    | none => rw [hc2] at h2; simp at h2
    | some s2 =>
      rw [hc1] at h1
      rw [hc2] at h2
      simp only [Option.some.injEq] at h1 h2
      rw [← h1, ← h2]
      exact ⟨hr, congrArg getRatingColor hr, rfl⟩

/-- Witness for C5 at two concrete responses that share the rating "AA"
but differ in score and eligibility. -/
theorem C5_rating_verbatim_witness :
    (renderScoreSection ⟨some 700, "AA", "Eligible"⟩ 700).ratingText =
      (renderScoreSection ⟨some 500, "AA", "Conditional"⟩ 500).ratingText :=
  (C5_rating_verbatim ⟨some 700, "AA", "Eligible"⟩ ⟨some 500, "AA", "Conditional"⟩
    (renderScoreSection ⟨some 700, "AA", "Eligible"⟩ 700)
    (renderScoreSection ⟨some 500, "AA", "Conditional"⟩ 500) rfl rfl rfl).1

/-- C8: `validateFile` accepts a file exactly when its lower-cased name
ends in .csv, .xlsx, .xls or .pdf, its size is at most 10*1024*1024
bytes, and its MIME type is one of the four allowed types or its name
ends in .pdf; and `handleFile` leaves the state unchanged on every file
that fails validation. -/
theorem C8_validate_file (f : JsFile) (st : UploadState) :
    (validateFile f = true ↔
      (strEndsWith (strToLower f.name) ".csv" = true ∨
       strEndsWith (strToLower f.name) ".xlsx" = true ∨
       strEndsWith (strToLower f.name) ".xls" = true ∨
       strEndsWith (strToLower f.name) ".pdf" = true) ∧
      f.size ≤ 10 * 1024 * 1024 ∧
      (f.type = "text/csv" ∨ f.type = "application/vnd.ms-excel" ∨
       f.type = "application/vnd.openxmlformats-officedocument.spreadsheetml.sheet" ∨
       f.type = "application/pdf" ∨ strEndsWith (strToLower f.name) ".pdf" = true)) ∧
    (validateFile f = false → handleFile f st = st) := by
  constructor
  · unfold validateFile
    split_ifs with h1 h2 h3 <;> simp_all [ALLOWED_EXTS, ALLOWED_TYPES, MAX_SIZE_MB]
    rcases Bool.eq_false_or_eq_true (strEndsWith (strToLower f.name) ".pdf") with hpdf | hpdf
    · exact ⟨Or.inr (Or.inr (Or.inr hpdf)),
             Or.inr (Or.inr (Or.inr (Or.inr hpdf)))⟩
    · constructor
      · rcases Bool.eq_false_or_eq_true (strEndsWith (strToLower f.name) ".csv") with hc | hc
        · exact Or.inl hc
        · rcases Bool.eq_false_or_eq_true (strEndsWith (strToLower f.name) ".xlsx") with hx | hx
          · exact Or.inr (Or.inl hx)
          · rcases Bool.eq_false_or_eq_true (strEndsWith (strToLower f.name) ".xls") with hl | hl
            · exact Or.inr (Or.inr (Or.inl hl))
            · exact absurd (h1 hc hx hl) (Bool.eq_false_iff.mp hpdf)
      · by_contra hcon
        push_neg at hcon
        obtain ⟨t1, t2, t3, t4, _⟩ := hcon
        exact absurd (h2 t1 t2 t3 t4) (Bool.eq_false_iff.mp hpdf)
  · intro hv
    unfold handleFile
    rw [hv]
    simp

/-- Witness for C8: the file "report.txt" fails validation, so
`handleFile` leaves a concrete state unchanged; the file "report.csv"
of MIME type text/csv and size 100 passes validation. -/
theorem C8_validate_file_witness :
    handleFile ⟨"report.txt", "text/plain", 100⟩ ⟨none, some "error", "m"⟩ =
      ⟨none, some "error", "m"⟩ ∧
    validateFile ⟨"report.csv", "text/csv", 100⟩ = true :=
  ⟨(C8_validate_file ⟨"report.txt", "text/plain", 100⟩ ⟨none, some "error", "m"⟩).2
      (by decide),
   (C8_validate_file ⟨"report.csv", "text/csv", 100⟩ ⟨none, none, ""⟩).1.mpr
      (by refine ⟨Or.inl ?_, by norm_num, Or.inl rfl⟩; decide)⟩

/-- The change the Dashboard computes for a trend ending in entries
`a, b` is the client-side difference of their values. -/
theorem lastDiff_append (t : List (String × ℚ)) (a b : String × ℚ) :
    lastDiff (t ++ [a, b]) = b.2 - a.2 := by
  unfold lastDiff
  rw [if_pos (by simp)]
  have hlen : (t ++ [a, b]).length = t.length + 2 := by simp
  rw [hlen]
  have h1 : t.length + 2 - 1 = t.length + 1 := by omega
  have h2 : t.length + 2 - 2 = t.length := by omega
  rw [h1, h2]
  rw [List.getD_append_right _ _ _ _ (by omega),
      List.getD_append_right _ _ _ _ (by omega)]
  simp

/-- A concrete dashboard-summary response: a two-point revenue trend and
nothing else. -/
def exSummary : DashboardSummary :=
  ⟨none, none, none, none, none, none, none, none,
   [("Jan", 100), ("Feb", 130)], [], []⟩

/-- C2 is false on the code: for the response whose revenue trend is
[("Jan", 100), ("Feb", 130)], the revenue change the Dashboard shows is
30, a number contained nowhere in the response — it is computed
client-side. -/
theorem C2_counterexample :
    (computeTrends (some exSummary)).revenue_change = 30 ∧
    (30 : ℚ) ∉ summaryValues exSummary := by
  constructor
  · show lastDiff exSummary.revenue_trend = 30
    norm_num [exSummary, lastDiff]
  · norm_num [summaryValues, exSummary]

/-- C2 (amended): the revenue, net-income and health-score changes on
the metric cards are computed client-side: each is the difference
between the values of the last two entries of the response's
revenue_trend, cash_flow_trend and health_trend respectively, 0 when
the trend has fewer than two entries; the assets change is the constant
0 and the current ratio is taken from the response (0 when absent). -/
theorem C2_trend_changes_clientside (s : DashboardSummary)
    (t : List (String × ℚ)) (a b : String × ℚ) :
    (s.revenue_trend = t ++ [a, b] →
      (computeTrends (some s)).revenue_change = b.2 - a.2) ∧
    (s.cash_flow_trend = t ++ [a, b] →
      (computeTrends (some s)).net_income_change = b.2 - a.2) ∧
    (s.health_trend = t ++ [a, b] →
      (computeTrends (some s)).health_score_change = b.2 - a.2) ∧
    (s.revenue_trend.length ≤ 1 →
      (computeTrends (some s)).revenue_change = 0) ∧
    (computeTrends (some s)).assets_change = 0 ∧
    (computeTrends (some s)).current_ratio = s.current_ratio.getD 0 := by
  refine ⟨?_, ?_, ?_, ?_, rfl, rfl⟩
  · intro h
    show lastDiff s.revenue_trend = b.2 - a.2
    rw [h, lastDiff_append]
  · intro h
    show lastDiff s.cash_flow_trend = b.2 - a.2
    rw [h, lastDiff_append]
  · intro h
    show lastDiff s.health_trend = b.2 - a.2
    rw [h, lastDiff_append]
  · intro h
    show lastDiff s.revenue_trend = 0
    unfold lastDiff
    rw [if_neg (by omega)]

/-- Witness for C2 at the concrete two-point revenue trend. -/
theorem C2_trend_changes_clientside_witness :
    (computeTrends (some exSummary)).revenue_change = (130 : ℚ) - 100 :=
  (C2_trend_changes_clientside exSummary [] ("Jan", 100) ("Feb", 130)).1 rfl

/-- C1 is false on the code as stated: storing the empty string as the
token stores a token, yet for a request to "/api/data/upload" (which
contains neither auth path) the interceptor adds no Authorization
header, because the empty string is falsy in JavaScript. -/
theorem C1_counterexample :
    strIncludesOpt (some "/api/data/upload") "/api/auth/login" = false ∧
    strIncludesOpt (some "/api/data/upload") "/api/auth/register" = false ∧
    (requestInterceptor ⟨some "", some "7"⟩
        ⟨some "/api/data/upload", ⟨none, none⟩⟩).headers.authorization ≠
      some ("Bearer " ++ "") := by decide

/-- C1 (amended): for a configuration whose URL contains neither
"/api/auth/login" nor "/api/auth/register", the interceptor sets
Authorization to "Bearer " ++ token whenever a non-empty token is
stored and X-Company-ID to the stored company id whenever a non-empty
one is stored; a configuration whose URL contains either auth path is
returned unchanged. -/
theorem C1_request_interceptor (store : LocalStorage) (cfg : Config) :
    ((strIncludesOpt cfg.url "/api/auth/login" ||
        strIncludesOpt cfg.url "/api/auth/register") = false →
      (∀ t, store.token = some t → t ≠ "" →
        (requestInterceptor store cfg).headers.authorization =
          some ("Bearer " ++ t)) ∧
      (∀ c, store.currentCompanyId = some c → c ≠ "" →
        (requestInterceptor store cfg).headers.xCompanyId = some c)) ∧
    ((strIncludesOpt cfg.url "/api/auth/login" ||
        strIncludesOpt cfg.url "/api/auth/register") = true →
      requestInterceptor store cfg = cfg) := by
  constructor
  · intro h
    constructor
    · intro t ht hne
      unfold requestInterceptor
      rw [h]
      cases hc : jsTruthy store.currentCompanyId <;>
        simp [jsTruthy, ht, hne, hc]
    · intro c hcid hne
      unfold requestInterceptor
      rw [h]
      cases htok : jsTruthy store.token <;>
        simp [jsTruthy, hcid, hne, htok]
  · intro h
    unfold requestInterceptor
    rw [h]
    simp

/-- Witness for C1: a non-empty token and company id are attached on a
data request, and a login request passes through unchanged. -/
theorem C1_request_interceptor_witness :
    (requestInterceptor ⟨some "tok", some "7"⟩
        ⟨some "/api/data/upload", ⟨none, none⟩⟩).headers.authorization =
      some ("Bearer " ++ "tok") ∧
    (requestInterceptor ⟨some "tok", some "7"⟩
        ⟨some "/api/data/upload", ⟨none, none⟩⟩).headers.xCompanyId =
      some "7" ∧
    requestInterceptor ⟨some "tok", some "7"⟩
        ⟨some "/api/auth/login", ⟨none, none⟩⟩ =
      ⟨some "/api/auth/login", ⟨none, none⟩⟩ :=
  ⟨((C1_request_interceptor ⟨some "tok", some "7"⟩ _).1 (by decide)).1
      "tok" rfl (by decide),
   ((C1_request_interceptor ⟨some "tok", some "7"⟩ _).1 (by decide)).2
      "7" rfl (by decide),
   (C1_request_interceptor ⟨some "tok", some "7"⟩ _).2 (by decide)⟩

/-- C3: every `axios.get` call site whose response is stored as one of
the four documented data kinds uses exactly the documented path for that
kind, and the documented call sites exist: financial-health and
credit-evaluation in fetchAllFinancialData (part_004), forecast with
months_ahead and forecast_type in the Forecasting page (part_009), and
benchmark in the Benchmarking page. -/
theorem C3_documented_paths (c : ApiGet) (k : DataKind) :
    (c ∈ apiGetCalls → c.kind = some k → c.path = docPath k) ∧
    (⟨"unnamed/part_004", "/api/financial-health", [],
      some .financialHealth⟩ : ApiGet) ∈ apiGetCalls ∧
    (⟨"unnamed/part_004", "/api/credit-evaluation", [],
      some .creditEvaluation⟩ : ApiGet) ∈ apiGetCalls ∧
    (⟨"unnamed/part_009", "/api/forecast", ["months_ahead", "forecast_type"],
      some .forecast⟩ : ApiGet) ∈ apiGetCalls ∧
    (⟨"frontend/src/pages/Benchmarking/Benchmarking.js", "/api/benchmark", [],
      some .benchmark⟩ : ApiGet) ∈ apiGetCalls := by
  refine ⟨?_, by decide, by decide, by decide, by decide⟩
  intro hc hk
  fin_cases hc <;>
    first
      | exact Option.noConfusion hk
      | (injection hk with hk; subst hk; rfl)

/-- Witness for C3 at the Benchmarking call site. -/
theorem C3_documented_paths_witness :
    (⟨"frontend/src/pages/Benchmarking/Benchmarking.js", "/api/benchmark", [],
      some .benchmark⟩ : ApiGet).path = docPath .benchmark :=
  (C3_documented_paths
    ⟨"frontend/src/pages/Benchmarking/Benchmarking.js", "/api/benchmark", [],
     some .benchmark⟩ .benchmark).1 (by decide) rfl

end FinHealth
